import Mathlib

/-!
Verification development for the `V2buttonrizedImmichOCR` automation tool.

The Python sources are shallowly embedded here:
* strings are modelled as `List Char` (ASCII behaviour of `str.strip`,
  `str.upper`, `str.split`, `in`, `str.endswith`);
* `ocr_processor.OCRProcessor` (`preprocess_image`, `extract_text`,
  `_filter_text_with_reply_pattern`, `validate_text_quality`) becomes pure
  functions, with the external Tesseract call abstracted as an
  `OcrOutcome` input (returned text, or the raised error message);
* the two `re.search` calls of `_filter_text_with_reply_pattern` are
  embedded by an explicit backtracking matcher with Python's semantics
  (leftmost start position, greedy `\s+`, lazy / greedy counted group);
* `config.OCRConfig` and `config.OCRLocationConfig` become structures;
* the loop machinery of `main_app.MainWindow` and `OCRWorkerThread`
  becomes a step function on an explicit `LoopSt` state, where each
  asynchronous callback / timer shot is an event dispatched to the
  faithful translation of its handler.
-/

/-- Python whitespace test for ASCII (`str.strip`, `str.split`, regex `\s`):
space, tab, newline, carriage return, vertical tab, form feed. -/
def isPySpace (c : Char) : Bool :=
  c = ' ' || c = '\t' || c = '\n' || c = '\r' || c = '\x0b' || c = '\x0c'

/-- Python `str.strip()` with no argument: remove leading and trailing
whitespace. -/
def pyStrip (l : List Char) : List Char :=
  ((l.dropWhile isPySpace).reverse.dropWhile isPySpace).reverse

/-- Python `str.rstrip()`: remove trailing whitespace only. -/
def pyRstrip (l : List Char) : List Char :=
  (l.reverse.dropWhile isPySpace).reverse

/-- Python `str.upper()` restricted to ASCII, at the level of code points:
letters `a`–`z` map to `A`–`Z`, everything else is unchanged. -/
def upNat (c : Char) : Nat :=
  if 97 ≤ c.toNat ∧ c.toNat ≤ 122 then c.toNat - 32 else c.toNat

/-- Python `str.lower()` restricted to ASCII, at the level of code points
(used for `re.I` case-insensitive literal matching). -/
def lowNat (c : Char) : Nat :=
  if 65 ≤ c.toNat ∧ c.toNat ≤ 90 then c.toNat + 32 else c.toNat

/-- Predicate `leadsWith p l`: holds when `p` is an initial segment of `l`. -/
def leadsWith : List Char → List Char → Bool
  | [], _ => true
  | _ :: _, [] => false
  | p :: ps, c :: cs => (p = c) && leadsWith ps cs

/-- Predicate `leadsWithCI p l`: initial-segment test that ignores ASCII case
(regex literal under `re.I`). -/
def leadsWithCI : List Char → List Char → Bool
  | [], _ => true
  | _ :: _, [] => false
  | p :: ps, c :: cs => (lowNat p = lowNat c) && leadsWithCI ps cs

/-- Predicate `trailsWith p l`: holds when `p` is a final segment of `l`
(Python `str.endswith`). -/
def trailsWith (p l : List Char) : Bool :=
  leadsWith p.reverse l.reverse

/-- Python `needle in hay` on strings: substring containment. -/
def pyIn (needle hay : List Char) : Bool :=
  (List.range (hay.length + 1)).any fun i => leadsWith needle (hay.drop i)

/-- Case-insensitive containment `pattern.upper() in text.upper()`
(ocr_processor.py line 116), compared at the level of uppercased code
points. -/
def pyInUpper (pat text : List Char) : Bool :=
  (List.range (text.length + 1)).any fun i =>
    leadsWith (pat.map (fun c => Char.ofNat (upNat c)))
      ((text.drop i).map (fun c => Char.ofNat (upNat c)))

/-- Python `str.split()` with no argument: split on runs of whitespace,
dropping empty pieces.  Auxiliary accumulator form. -/
def splitPyAux : List Char → List Char → List (List Char)
  | [], acc => if acc.isEmpty then [] else [acc.reverse]
  | c :: cs, acc =>
    if isPySpace c then
      if acc.isEmpty then splitPyAux cs [] else acc.reverse :: splitPyAux cs []
    else
      splitPyAux cs (c :: acc)

/-- Python `str.split()` with no argument. -/
def splitPy (l : List Char) : List (List Char) :=
  splitPyAux l []

/-- Join a list of words with single spaces (Python `" ".join`). -/
def joinSp (ws : List (List Char)) : List Char :=
  List.intercalate [' '] ws

/-- A character admitted by the regex class `[^\n\r]`. -/
def nonNL (c : Char) : Bool :=
  !(c = '\n' || c = '\r')

/-- The literal `"Reply to"` of the two regex patterns (the embedded space
matches exactly one space character). -/
def replyMarker : List Char := "Reply to".toList

/-- Attempt of `re.search(r"Reply to\s+([^\n\r]{2,60}?)\.\.\.", raw, re.I)`
at one fixed start position: match the literal case-insensitively, then
`\s+` greedily (backtracking from the longest run), then the lazy counted
group (shortest first), then the literal ellipsis.  Returns the group. -/
def matchEllipsisAt (t : List Char) : Option (List Char) :=
  if leadsWithCI replyMarker t then
    let rest := t.drop replyMarker.length
    let k := (rest.takeWhile isPySpace).length
    ((List.range k).map (fun i => k - i)).findSome? fun w =>
      let u := rest.drop w
      ((List.range 59).map (fun i => i + 2)).findSome? fun g =>
        if g ≤ u.length ∧ (u.take g).all nonNL ∧ leadsWith "...".toList (u.drop g)
        then some (u.take g) else none
  else none

/-- Attempt of `re.search(r"Reply to\s+([^\n\r]{2,60})", raw, re.I)` at one
fixed start position: as above but the counted group is greedy (longest
first) and no terminator is required. -/
def matchNoEllipsisAt (t : List Char) : Option (List Char) :=
  if leadsWithCI replyMarker t then
    let rest := t.drop replyMarker.length
    let k := (rest.takeWhile isPySpace).length
    ((List.range k).map (fun i => k - i)).findSome? fun w =>
      let u := rest.drop w
      ((List.range 59).map (fun i => 60 - i)).findSome? fun g =>
        if g ≤ u.length ∧ (u.take g).all nonNL
        then some (u.take g) else none
  else none

/-- Embedding of `re.search` with the ellipsis-terminated pattern: leftmost start
position wins (ocr_processor.py line 123). -/
def searchReplyEllipsis (s : List Char) : Option (List Char) :=
  (List.range (s.length + 1)).findSome? fun i => matchEllipsisAt (s.drop i)

/-- Embedding of `re.search` with the ellipsis-free fallback pattern
(ocr_processor.py line 128). -/
def searchReplyNoEllipsis (s : List Char) : Option (List Char) :=
  (List.range (s.length + 1)).findSome? fun i => matchNoEllipsisAt (s.drop i)

/-- Embedding of `config.OCRConfig` (config.py lines 17–48) with the fields the OCR
path reads; `excluded_patterns` carries its `__post_init__` default.  The
screenshot-size / aspect-ratio tuning fields are floating-point data that
no modelled code path reads and are omitted. -/
structure OCRConfig where
  tesseract_config : String := "--psm 6"
  min_text_length : Nat := 3
  excluded_patterns : List String := ["NO USER", "CAPTCHA", "LOADING"]
  psm_sparse : Nat := 11
  psm_filled : Nat := 6
deriving DecidableEq

/-- The default `OCRConfig()` after `__post_init__`. -/
def defaultOCRConfig : OCRConfig := {}

/-- Embedding of `OCRProcessor._filter_text_with_reply_pattern` (ocr_processor.py
lines 99–140), the text normalizer: length gate, excluded-pattern gate,
ellipsis-terminated `Reply to` search, ellipsis-free fallback search,
ellipsis stripping, first-three-words fallback, `"NO USER"` sentinel.
Python truthiness of a string (`if user`, `if not user`, `if tokens`)
is emptiness of the list. -/
def filter_text_with_reply_pattern (cfg : OCRConfig) (raw_text : List Char) : List Char :=
  if raw_text.isEmpty || decide ((pyStrip raw_text).length < cfg.min_text_length) then
    []
  else if cfg.excluded_patterns.any (fun p => pyInUpper p.toList raw_text) then
    []
  else
    let raw := pyStrip raw_text
    let user0 : Option (List Char) :=
      match searchReplyEllipsis raw with
      | some g => some (pyStrip g)
      | none =>
        match searchReplyNoEllipsis raw with
        | some g => some (pyStrip g)
        | none => none
    let user1 : Option (List Char) :=
      match user0 with
      | some u =>
        if !u.isEmpty && trailsWith "...".toList u then
          some (pyRstrip (u.take (u.length - 3)))
        else some u
      | none => none
    let user2 : Option (List Char) :=
      match user1 with
      | some u =>
        if u.isEmpty then
          let tokens := splitPy (raw.map fun c => if c = '\n' then ' ' else c)
          if tokens.isEmpty then none else some (joinSp (tokens.take 3))
        else some u
      | none =>
        let tokens := splitPy (raw.map fun c => if c = '\n' then ' ' else c)
        if tokens.isEmpty then none else some (joinSp (tokens.take 3))
    match user2 with
    | some u => if u.isEmpty then "NO USER".toList else u
    | none => "NO USER".toList

/-- Outcome of the external Tesseract call inside
`OCRProcessor.extract_text`: either the text it returned, or the message
of the exception it raised. -/
inductive OcrOutcome where
  | ok (text : List Char)
  | err (msg : List Char)
deriving DecidableEq

/-- Embedding of `OCRProcessor.extract_text` (ocr_processor.py lines 70–97): on
success, strip the engine output and normalize it; on an exception whose
message marks a missing Tesseract install, return the fixed string
`"Tesseract OCR not installed"`; on any other exception, return
`"OCR Error: <message>"`. -/
def extract_text (cfg : OCRConfig) : OcrOutcome → List Char
  | .ok t => filter_text_with_reply_pattern cfg (pyStrip t)
  | .err m =>
    if pyIn "tesseract is not installed".toList m
        || pyIn "tesseract: command not found".toList m then
      "Tesseract OCR not installed".toList
    else
      "OCR Error: ".toList ++ m

/-- Embedding of `OCRProcessor.validate_text_quality` (ocr_processor.py lines 142–163):
`(is_valid, reason)`. -/
def validate_text_quality (cfg : OCRConfig) (text : List Char) : Bool × List Char :=
  if text.isEmpty then
    (false, "No text detected in the selected region.".toList)
  else if text.length < cfg.min_text_length then
    (false, "Text too short (minimum ".toList
      ++ (toString cfg.min_text_length).toList ++ " characters).".toList)
  else
    match cfg.excluded_patterns.find? (fun p => pyInUpper p.toList text) with
    | some p => (false, "Excluded pattern detected: ".toList ++ p.toList)
    | none => (true, "Text quality is acceptable.".toList)

/-- Input of one `OCRWorkerThread.run` invocation (main_app.py lines
59–91): either the captured image reached the OCR engine (with the
engine's outcome), or some step of the `try` block before the loop-mode
branching raised, carrying the exception message. -/
inductive WorkerInput where
  | image (o : OcrOutcome)
  | broken (msg : List Char)
deriving DecidableEq

/-- Signal emitted by `OCRWorkerThread.run`: `ocr_completed(text, pixmap)`
or `ocr_failed(reason)`. -/
inductive WorkerSignal where
  | completed (text : List Char)
  | failed (reason : List Char)
deriving DecidableEq

/-- The sentinel failure token of loop mode. -/
def failToken : List Char := "USERNAME_OCR_FAIL".toList

/-- Embedding of `OCRWorkerThread.run` (main_app.py lines 59–91): extract, validate,
then branch on `self.parent().loop_active`: in loop mode emit the text
when its strip is truthy and the sentinel `USERNAME_OCR_FAIL` otherwise;
outside loop mode use the validation verdict.  An exception in the `try`
block emits the sentinel in loop mode and `ocr_failed` otherwise. -/
def workerRun (cfg : OCRConfig) (loop_active : Bool) : WorkerInput → WorkerSignal
  | .image o =>
    let text := extract_text cfg o
    let v := validate_text_quality cfg text
    if loop_active then
      if !(pyStrip text).isEmpty then .completed text
      else .completed failToken
    else if v.1 then .completed text
    else .failed v.2
  | .broken m =>
    if loop_active then .completed failToken
    else .failed ("OCR processing failed: ".toList ++ m)

/-- Embedding of `config.OCRLocationConfig` (config.py lines 51–73). -/
structure OCRLocationConfig where
  remember_location : Bool := true
  last_crop_x : Int := 0
  last_crop_y : Int := 0
  last_crop_width : Int := 0
  last_crop_height : Int := 0
deriving DecidableEq

/-- Embedding of `OCRLocationConfig.save_location` (config.py lines 62–67). -/
def save_location (c : OCRLocationConfig) (x y width height : Int) : OCRLocationConfig :=
  { c with
    last_crop_x := x
    last_crop_y := y
    last_crop_width := width
    last_crop_height := height }

/-- Embedding of `OCRLocationConfig.has_saved_location` (config.py lines 69–73). -/
def has_saved_location (c : OCRLocationConfig) : Bool :=
  c.remember_location && decide (0 < c.last_crop_width)
    && decide (0 < c.last_crop_height)

/-- A `QRect` as used for the crop rectangle: logical x, y, width,
height. -/
structure QRectM where
  x : Int
  y : Int
  w : Int
  h : Int
deriving DecidableEq

/-- Embedding of `AutomationWebView._restore_last_crop_location` (web_engine.py lines
283–298) acting on the `crop_rect` attribute: when a saved location
exists, `crop_rect` becomes the saved rectangle, otherwise it is left
unchanged. -/
def restore_last_crop_location (c : OCRLocationConfig) (crop : Option QRectM) : Option QRectM :=
  if has_saved_location c then
    some ⟨c.last_crop_x, c.last_crop_y, c.last_crop_width, c.last_crop_height⟩
  else crop

/-- Embedding of `OCRWorkerThread.__init__` (main_app.py lines 51–57): in full-page
mode the worker halves `min_text_length` (floored, at least 1); nothing
else of the configuration is touched. -/
def workerConfigFor (cfg : OCRConfig) (full_page : Bool) : OCRConfig :=
  if full_page then { cfg with min_text_length := max 1 (cfg.min_text_length / 2) }
  else cfg

/-- The Tesseract configuration string `extract_text` passes to the
engine for a capture (ocr_processor.py line 87 reads
`self.config.tesseract_config`, and `OCRWorkerThread.__init__` is the
only shape-dependent adjustment). -/
def tesseractConfigUsed (cfg : OCRConfig) (full_page : Bool) : String :=
  (workerConfigFor cfg full_page).tesseract_config

/-- Modelled from the spec: the shape-selected content mode the spec
describes ("a sparse-text mode (PSM 11) for tight crop captures and a
block/paragraph mode (PSM 6) for full-page captures"), rendered as a
Tesseract `--psm` argument from the `psm_sparse` / `psm_filled` fields of
`OCRConfig`.  No code under `src/` performs this selection; this
definition follows the spec's words for comparison. -/
def specTesseractConfigFor (cfg : OCRConfig) (full_page : Bool) : String :=
  if full_page then "--psm " ++ toString cfg.psm_filled
  else "--psm " ++ toString cfg.psm_sparse


/-- An RGB pixel of the captured raster. -/
structure RGB where
  r : Nat
  g : Nat
  b : Nat

/-- A colour raster image: dimensions plus a total pixel map. -/
structure RGBImage where
  width : Nat
  height : Nat
  px : Nat → Nat → RGB

/-- A single-channel (luminance) raster image. -/
structure GrayImage where
  width : Nat
  height : Nat
  px : Nat → Nat → Nat

/-- Clamp an integer sample to the byte range `0..255`. -/
def clampByte (n : Int) : Nat :=
  (max 0 (min 255 n)).toNat

/-- Clamp a possibly out-of-range coordinate to `0..hi-1` (edge extension
at image borders, as PIL's convolution filters do). -/
def clampIdx (n : Int) (hi : Nat) : Nat :=
  if n < 0 then 0 else min n.toNat (hi - 1)

/-- Model of `pil_img.convert("L")` (ocr_processor.py line 53): ITU-R
601-2 luminance transform `L = (299 R + 587 G + 114 B) / 1000`, pixel for
pixel on the same raster grid. -/
def convertL (img : RGBImage) : GrayImage :=
  { width := img.width
    height := img.height
    px := fun x y =>
      ((img.px x y).r * 299 + (img.px x y).g * 587 + (img.px x y).b * 114) / 1000 }

/-- Model of a small-radius Gaussian-style filter on the same raster grid
(`ImageFilter.GaussianBlur` and the blurred term of
`ImageFilter.UnsharpMask`): a normalized 3×3 convolution with centre
weight `cw`, edge-adjacent weight `aw` and diagonal weight `dw`, with
border pixels clamped.  The kernel weights stand in for the library's
radius-dependent coefficients; the output grid always equals the input
grid. -/
def gaussKernel3 (cw aw dw : Nat) (img : GrayImage) : GrayImage :=
  { width := img.width
    height := img.height
    px := fun x y =>
      let g : Int → Int → Nat := fun dx dy =>
        img.px (clampIdx ((x : Int) + dx) img.width) (clampIdx ((y : Int) + dy) img.height)
      (dw * g (-1) (-1) + aw * g 0 (-1) + dw * g 1 (-1)
        + aw * g (-1) 0 + cw * g 0 0 + aw * g 1 0
        + dw * g (-1) 1 + aw * g 0 1 + dw * g 1 1) / (cw + 4 * aw + 4 * dw) }

/-- Sum of all samples of a grayscale image over its own grid. -/
def graySum (img : GrayImage) : Nat :=
  ((List.range img.width).map fun x =>
    ((List.range img.height).map fun y => img.px x y).sum).sum

/-- Mean sample of a grayscale image (0 on an empty image). -/
def grayMean (img : GrayImage) : Nat :=
  graySum img / (img.width * img.height)

/-- Model of `ImageEnhance.Contrast(denoised).enhance(1.2)`
(ocr_processor.py lines 60–61): each sample is stretched away from the
image mean by the factor 1.2 = 6/5 and clamped, on the same raster
grid. -/
def contrastEnhance12 (img : GrayImage) : GrayImage :=
  { width := img.width
    height := img.height
    px := fun x y =>
      let m : Int := grayMean img
      clampByte (m + 6 * ((img.px x y : Int) - m) / 5) }

/-- Model of `ImageFilter.UnsharpMask(radius=0.5, percent=100,
threshold=2)` (ocr_processor.py lines 65–66): where a sample differs from
its blurred value by at least the threshold 2, add 100% of the difference
back (clamped); elsewhere the sample is unchanged.  Same raster grid. -/
def unsharpMask100t2 (img : GrayImage) : GrayImage :=
  { width := img.width
    height := img.height
    px := fun x y =>
      let p : Int := img.px x y
      let b : Int := (gaussKernel3 8 2 1 img).px x y
      if 2 ≤ (p - b).natAbs then clampByte (p + (p - b)) else img.px x y }

/-- Embedding of `OCRProcessor.preprocess_image` (ocr_processor.py lines 34–68):
grayscale conversion, mild Gaussian blur (radius 0.3), conservative
contrast enhancement (1.2), subtle unsharp mask — in this fixed order,
with no resize step anywhere. -/
def preprocess_image (img : RGBImage) : GrayImage :=
  unsharpMask100t2 (contrastEnhance12 (gaussKernel3 12 1 0 (convertL img)))

/-- The description textarea of the hosted Immich page, as the generated
injection script observes it: presence of the element matched by
`textarea[data-testid="autogrow-textarea"]`, its current value, its focus
state, and the value last saved through the focusout mechanism. -/
structure Page where
  hasTextarea : Bool
  textareaValue : List Char
  focused : Bool
  savedValue : Option (List Char)
deriving DecidableEq

/-- The page script generated by
`AutomationWebView.inject_text_with_automation` (web_engine.py lines
176–222): look the textarea up; when absent, resolve to `false` without
touching the page; otherwise clear it, focus it, set the new value,
dispatch the input event, blur, and dispatch focusout — which saves the
current value — then resolve to `true`. -/
def injectScript (p : Page) (text : List Char) : Bool × Page :=
  if p.hasTextarea then
    let p1 := { p with textareaValue := [] }
    let p2 := { p1 with focused := true }
    let p3 := { p2 with textareaValue := text }
    let p4 := { p3 with focused := false, savedValue := some p3.textareaValue }
    (true, p4)
  else
    (false, p)

/-- The loop-relevant state of `MainWindow` (main_app.py): the
`loop_active` flag, the `loop_state` tag, the last OCR text
`current_ocr_text`, the hosted page, and two observables counting
dispatched navigations (`_navigate_next` invocations) and started OCR
cycles (`_run_ocr` invocations from the loop). -/
structure LoopSt where
  loopActive : Bool
  loopState : List Char
  currentOcrText : List Char
  page : Page
  navigations : Nat
  ocrRuns : Nat
deriving DecidableEq

/-- The asynchronous continuations of the loop: Qt signals
(`ocr_completed`, `ocr_failed`), `QTimer.singleShot` targets
(`_loop_write_text`, `_loop_proceed_to_next`, `_automation_step`) and the
`runJavaScript` result callback of the injection script. -/
inductive Ev where
  | ocrCompleted (text : List Char)
  | ocrFailedEv (reason : List Char)
  | loopWriteEv
  | loopNextEv
  | autoStepEv
  | afterInjEv (result : Bool)
deriving DecidableEq

/-- Embedding of `MainWindow._navigate_next` (main_app.py lines 703–731): dispatch the
ArrowRight page script, fire-and-forget. -/
def navigateNext (s : LoopSt) : LoopSt :=
  { s with navigations := s.navigations + 1 }

/-- Embedding of `MainWindow._loop_proceed_to_next` (main_app.py lines 588–608): bail
out when the loop is inactive; otherwise clear `current_ocr_text`,
navigate, and — the flag still being checked — schedule the next
`_automation_step` after the image-load delay. -/
def loopProceedToNext (s : LoopSt) : LoopSt × List Ev :=
  if s.loopActive then
    let s1 := navigateNext { s with currentOcrText := [] }
    if s1.loopActive then (s1, [Ev.autoStepEv]) else (s1, [])
  else (s, [])

/-- Embedding of `_after_write_injection` inside `MainWindow._loop_write_text`
(main_app.py lines 572–579): the injection result is only logged; when
the loop is still active, proceed to navigation. -/
def afterWriteInjection (s : LoopSt) (_result : Bool) : LoopSt × List Ev :=
  if s.loopActive then loopProceedToNext s else (s, [])

/-- Embedding of `MainWindow._loop_write_text` (main_app.py lines 564–586): bail out
when the loop is inactive; with a truthy `current_ocr_text` dispatch the
injection script, its result callback to fire later; with an empty text
call the callback synchronously with `True`. -/
def loopWriteText (s : LoopSt) : LoopSt × List Ev :=
  if s.loopActive then
    if !s.currentOcrText.isEmpty then
      let r := injectScript s.page s.currentOcrText
      ({ s with page := r.2 }, [Ev.afterInjEv r.1])
    else
      afterWriteInjection s true
  else (s, [])

/-- Embedding of `MainWindow._on_ocr_completed` (main_app.py lines 515–533): store the
text, then — only when the loop is active — schedule the write step for a
truthy text and the navigation step for an empty one. -/
def onOcrCompleted (s : LoopSt) (text : List Char) : LoopSt × List Ev :=
  let s1 := { s with currentOcrText := text }
  if s1.loopActive && !text.isEmpty then (s1, [Ev.loopWriteEv])
  else if s1.loopActive && text.isEmpty then (s1, [Ev.loopNextEv])
  else (s1, [])

/-- Embedding of `MainWindow._on_ocr_failed` (main_app.py lines 610–623): store the
failure marker as the current text and, when the loop is active, schedule
the write step. -/
def onOcrFailed (s : LoopSt) (_reason : List Char) : LoopSt × List Ev :=
  let s1 := { s with currentOcrText := failToken }
  if s1.loopActive then (s1, [Ev.loopWriteEv]) else (s1, [])

/-- Embedding of `MainWindow._run_ocr` as invoked from the loop (main_app.py lines
485–513): capture and start a fresh worker; the worker's signal arrives
later as an environment event. -/
def runOcrStep (s : LoopSt) : LoopSt × List Ev :=
  ({ s with ocrRuns := s.ocrRuns + 1 }, [])

/-- Embedding of `MainWindow._automation_step` (main_app.py lines 684–695): bail out
when the loop is inactive, otherwise start the OCR cycle. -/
def automationStep (s : LoopSt) : LoopSt × List Ev :=
  if s.loopActive then runOcrStep s else (s, [])

/-- Embedding of `MainWindow._stop_loop` (main_app.py lines 669–682): clear the
`loop_active` flag (button state changes are UI-only). -/
def stopLoop (s : LoopSt) : LoopSt :=
  { s with loopActive := false }

/-- Dispatch one pending asynchronous continuation to its handler,
returning the new state and the continuations it schedules. -/
def dispatchEv (s : LoopSt) : Ev → LoopSt × List Ev
  | .ocrCompleted t => onOcrCompleted s t
  | .ocrFailedEv r => onOcrFailed s r
  | .loopWriteEv => loopWriteText s
  | .loopNextEv => loopProceedToNext s
  | .autoStepEv => automationStep s
  | .afterInjEv b => afterWriteInjection s b

/-- The remainder of a loop cycle once the write step runs: perform
`_loop_write_text` and, when it dispatched the injection script, let the
script's result callback fire.  Ends at the point where the next
`_automation_step` is (or is not) scheduled. -/
def fullCycleTail (s : LoopSt) : LoopSt × List Ev :=
  let w := loopWriteText s
  match w.2 with
  | [Ev.afterInjEv r] => afterWriteInjection w.1 r
  | _ => w

/-- The token the normalizer derives once the two gates have passed and
the ellipsis-free search has captured `u` on the stripped text `raw`:
the ellipsis-terminated capture takes precedence when it exists, a
terminating ellipsis is stripped with trailing whitespace, and an empty
trimmed capture falls back to the first three words (ocr_processor.py
lines 119–140). -/
def replyToken (raw u : List Char) : List Char :=
  let user0 : Option (List Char) :=
    match searchReplyEllipsis raw with
    | some g => some (pyStrip g)
    | none => some (pyStrip u)
  let user1 : Option (List Char) :=
    match user0 with
    | some t =>
      if !t.isEmpty && trailsWith "...".toList t then
        some (pyRstrip (t.take (t.length - 3)))
      else some t
    | none => none
  let user2 : Option (List Char) :=
    match user1 with
    | some t =>
      if t.isEmpty then
        let tokens := splitPy (raw.map fun c => if c = '\n' then ' ' else c)
        if tokens.isEmpty then none else some (joinSp (tokens.take 3))
      else some t
    | none =>
      let tokens := splitPy (raw.map fun c => if c = '\n' then ' ' else c)
      if tokens.isEmpty then none else some (joinSp (tokens.take 3))
  match user2 with
  | some t => if t.isEmpty then "NO USER".toList else t
  | none => "NO USER".toList

/-- The default `OCRLocationConfig()`. -/
def defaultLocationConfig : OCRLocationConfig := {}

/-- A concrete loop state with the loop running, used to instantiate the
loop theorems. -/
def sampleActive : LoopSt :=
  ⟨true, "OCR".toList, "tok".toList, ⟨true, [], false, none⟩, 0, 0⟩

/-- A concrete loop state after `_stop_loop`, with pending work left
over. -/
def sampleStopped : LoopSt :=
  ⟨false, "OCR".toList, "abc".toList, ⟨true, "v".toList, false, none⟩, 3, 5⟩

/-- A concrete running loop state whose page lacks the description
textarea. -/
def samplePageless : LoopSt :=
  ⟨true, "OCR".toList, "zoe99".toList, ⟨false, [], false, none⟩, 0, 0⟩

/-- While the loop is active, the tail of a cycle — the write step
followed by the injection callback — always navigates onward and
schedules the next `_automation_step`, whatever the current text and
page contents are. -/
theorem activeCycleTail (s : LoopSt) (h : s.loopActive = true) :
    (fullCycleTail s).2 = [Ev.autoStepEv] ∧ (fullCycleTail s).1.loopActive = true := by
  by_cases hemp : s.currentOcrText.isEmpty = true
  · simp [fullCycleTail, loopWriteText, afterWriteInjection, loopProceedToNext,
      navigateNext, h, hemp]
  · have hemp' : s.currentOcrText.isEmpty = false := by
      cases hx : s.currentOcrText.isEmpty
      · rfl
      · exact absurd hx hemp
    cases hpt : s.page.hasTextarea <;>
      simp [fullCycleTail, loopWriteText, afterWriteInjection, loopProceedToNext,
        navigateNext, injectScript, h, hemp', hpt]

/-- C5: for every input image, `preprocess_image` returns an image whose
width and height equal the input's width and height exactly — the
grayscale, blur, contrast and unsharp-mask pipeline contains no scaling
or resize step. -/
theorem preprocess_preserves_dimensions (img : RGBImage) :
    (preprocess_image img).width = img.width
      ∧ (preprocess_image img).height = img.height :=
  ⟨rfl, rfl⟩

/-- C10: crop-location persistence round-trips — after
`save_location x y w h` the stored location is exactly `(x, y, w, h)`;
`has_saved_location` holds exactly when `remember_location` is set and
the stored width and height are strictly positive; and when it holds,
restoring sets the crop rectangle to exactly the stored rectangle. -/
theorem crop_location_roundtrip (c : OCRLocationConfig) (x y w h : Int)
    (crop : Option QRectM) :
    ((save_location c x y w h).last_crop_x = x
      ∧ (save_location c x y w h).last_crop_y = y
      ∧ (save_location c x y w h).last_crop_width = w
      ∧ (save_location c x y w h).last_crop_height = h)
    ∧ has_saved_location (save_location c x y w h)
        = (c.remember_location && decide (0 < w) && decide (0 < h))
    ∧ (has_saved_location (save_location c x y w h) = true →
        restore_last_crop_location (save_location c x y w h) crop
          = some ⟨x, y, w, h⟩) := by
  refine ⟨⟨rfl, rfl, rfl, rfl⟩, rfl, fun hs => ?_⟩
  unfold restore_last_crop_location
  rw [hs]
  simp [save_location]

/-- Witness for C10 at a concrete configuration and rectangle. -/
theorem crop_location_roundtrip_witness :
    has_saved_location (save_location defaultLocationConfig 1 2 3 4) = true
    ∧ restore_last_crop_location (save_location defaultLocationConfig 1 2 3 4) none
        = some ⟨1, 2, 3, 4⟩ :=
  ⟨by decide,
    (crop_location_roundtrip defaultLocationConfig 1 2 3 4 none).2.2 (by decide)⟩

/-- C6: for every raw OCR text containing, case-insensitively, any string
of `excluded_patterns`, the normalizer returns the empty token. -/
theorem excluded_pattern_gives_empty (cfg : OCRConfig) (raw_text : List Char)
    (p : String) (hp : p ∈ cfg.excluded_patterns)
    (hin : pyInUpper p.toList raw_text = true) :
    filter_text_with_reply_pattern cfg raw_text = [] := by
  have hany : (cfg.excluded_patterns.any fun q => pyInUpper q.toList raw_text) = true :=
    List.any_eq_true.mpr ⟨p, hp, hin⟩
  unfold filter_text_with_reply_pattern
  by_cases hfirst : (raw_text.isEmpty
      || decide ((pyStrip raw_text).length < cfg.min_text_length)) = true
  · rw [hfirst]
    simp
  · rw [Bool.not_eq_true] at hfirst
    rw [hfirst, hany]
    simp

/-- Witness for C6: a mixed-case occurrence of the excluded pattern
`CAPTCHA`. -/
theorem excluded_pattern_gives_empty_witness :
    ("CAPTCHA" ∈ defaultOCRConfig.excluded_patterns
      ∧ pyInUpper "CAPTCHA".toList "a Captcha challenge".toList = true)
    ∧ filter_text_with_reply_pattern defaultOCRConfig "a Captcha challenge".toList = [] :=
  ⟨⟨by decide, by decide⟩,
    excluded_pattern_gives_empty defaultOCRConfig "a Captcha challenge".toList
      "CAPTCHA" (by decide) (by decide)⟩

/-- C2 counterexample: `normalize("")` is the empty token, not the
`"NO USER"` sentinel the claim asserts. -/
theorem normalize_empty_counterexample :
    filter_text_with_reply_pattern defaultOCRConfig "".toList ≠ "NO USER".toList := by
  decide

/-- C2 (amended): `normalize` applied to the empty string returns the
empty token — the empty-input / minimum-length rule fires before any
fallback, for every configuration. -/
theorem normalize_empty_returns_empty (cfg : OCRConfig) :
    filter_text_with_reply_pattern cfg "".toList = [] := rfl

/-- C4 counterexample: an OCR runtime error other than engine-unavailable
is not converted to the empty raw text. -/
theorem ocr_error_counterexample :
    extract_text defaultOCRConfig (OcrOutcome.err "boom".toList) ≠ [] := by decide

/-- C4 (amended): every OCR runtime error whose message does not mark a
missing Tesseract install is caught and converted to the error-message
string `"OCR Error: <message>"` — a value is always returned, never a
propagated exception, but it is not the empty string. -/
theorem ocr_error_text (cfg : OCRConfig) (m : List Char)
    (h : (pyIn "tesseract is not installed".toList m
          || pyIn "tesseract: command not found".toList m) = false) :
    extract_text cfg (OcrOutcome.err m) = "OCR Error: ".toList ++ m := by
  show (if (pyIn "tesseract is not installed".toList m
        || pyIn "tesseract: command not found".toList m) = true then
      "Tesseract OCR not installed".toList
    else "OCR Error: ".toList ++ m) = "OCR Error: ".toList ++ m
  rw [h]
  simp

/-- Witness for C4 at the concrete error message `"boom"`. -/
theorem ocr_error_text_witness :
    (pyIn "tesseract is not installed".toList "boom".toList
      || pyIn "tesseract: command not found".toList "boom".toList) = false
    ∧ extract_text defaultOCRConfig (OcrOutcome.err "boom".toList)
        = "OCR Error: boom".toList := by
  refine ⟨by decide, ?_⟩
  rw [ocr_error_text defaultOCRConfig "boom".toList (by decide)]
  decide

/-- C7 counterexample: for a tight crop capture (`full_page = false`) the
engine is configured with the fixed `tesseract_config` string
`"--psm 6"`, not the sparse-text mode `"--psm 11"` the shape-selection
claim requires. -/
theorem psm_selection_counterexample :
    tesseractConfigUsed defaultOCRConfig false
      ≠ specTesseractConfigFor defaultOCRConfig false := by decide

/-- C7 (amended): text extraction always passes the single configured
`tesseract_config` string to the engine, regardless of the input's shape;
the `psm_sparse` / `psm_filled` fields are never consulted. -/
theorem psm_config_constant (cfg : OCRConfig) (full_page : Bool) :
    tesseractConfigUsed cfg full_page = cfg.tesseract_config := by
  cases full_page <;> rfl

/-- C1 counterexample: with the loop active and the OCR engine
unavailable, the worker emits the error string
`"Tesseract OCR not installed"` — a nonempty text that is then injected —
and not the fixed sentinel `USERNAME_OCR_FAIL` the claim requires. -/
theorem engine_unavailable_counterexample :
    workerRun defaultOCRConfig true
        (WorkerInput.image (OcrOutcome.err "tesseract is not installed".toList))
      = WorkerSignal.completed "Tesseract OCR not installed".toList
    ∧ workerRun defaultOCRConfig true
        (WorkerInput.image (OcrOutcome.err "tesseract is not installed".toList))
      ≠ WorkerSignal.completed failToken := by
  constructor
  · decide
  · decide

/-- C1 (amended): for every OCR cycle in an active loop the worker emits
`ocr_completed` with a nonempty token (injection is never skipped, the
injected token is never empty); an empty derived token or a worker
exception yields the sentinel `USERNAME_OCR_FAIL`, while an unavailable
OCR engine yields the nonempty error string
`"Tesseract OCR not installed"` instead of the sentinel; and whatever the
token, the completion schedules the write step and the cycle's tail
navigates and schedules the next cycle — the loop never stops. -/
theorem loop_always_injects_nonempty (cfg : OCRConfig) (inp : WorkerInput)
    (s : LoopSt) (hs : s.loopActive = true) :
    (∃ t, workerRun cfg true inp = WorkerSignal.completed t ∧ t ≠ [])
    ∧ (∀ o, inp = WorkerInput.image o →
        (pyStrip (extract_text cfg o)).isEmpty = true →
        workerRun cfg true inp = WorkerSignal.completed failToken)
    ∧ (∀ m, inp = WorkerInput.broken m →
        workerRun cfg true inp = WorkerSignal.completed failToken)
    ∧ (∀ m, inp = WorkerInput.image (OcrOutcome.err m) →
        (pyIn "tesseract is not installed".toList m
          || pyIn "tesseract: command not found".toList m) = true →
        workerRun cfg true inp
          = WorkerSignal.completed "Tesseract OCR not installed".toList)
    ∧ (∀ t, workerRun cfg true inp = WorkerSignal.completed t →
        (onOcrCompleted s t).2 = [Ev.loopWriteEv])
    ∧ (fullCycleTail s).2 = [Ev.autoStepEv]
    ∧ (fullCycleTail s).1.loopActive = true := by
  have hA : ∃ t, workerRun cfg true inp = WorkerSignal.completed t ∧ t ≠ [] := by
    cases inp with
    | broken m => exact ⟨failToken, rfl, by decide⟩
    | image o =>
      by_cases hstrip : (pyStrip (extract_text cfg o)).isEmpty = true
      · refine ⟨failToken, ?_, by decide⟩
        simp [workerRun, hstrip]
      · rw [Bool.not_eq_true] at hstrip
        refine ⟨extract_text cfg o, ?_, ?_⟩
        · simp [workerRun, hstrip]
        · intro hnil
          rw [hnil] at hstrip
          exact Bool.true_eq_false.mp (by simpa [pyStrip] using hstrip.symm)
  refine ⟨hA, ?_, ?_, ?_, ?_, (activeCycleTail s hs).1, (activeCycleTail s hs).2⟩
  · intro o ho hstrip
    subst ho
    simp [workerRun, hstrip]
  · intro m hm
    subst hm
    rfl
  · intro m hm htess
    subst hm
    have hext : extract_text cfg (OcrOutcome.err m)
        = "Tesseract OCR not installed".toList := by
      show (if (pyIn "tesseract is not installed".toList m
            || pyIn "tesseract: command not found".toList m) = true then
          "Tesseract OCR not installed".toList
        else "OCR Error: ".toList ++ m) = "Tesseract OCR not installed".toList
      rw [htess]
      simp
    simp only [workerRun, hext]
    simp
    intro hx
    exact absurd hx (by decide)
  · intro t ht
    obtain ⟨t', ht', hne⟩ := hA
    rw [ht] at ht'
    injection ht' with hteq
    subst hteq
    have hne' : t.isEmpty = false := by
      cases hx : t.isEmpty
      · rfl
      · exact absurd (List.isEmpty_iff.mp hx) hne
    simp [onOcrCompleted, hs, hne']

/-- Witness for C1: a concrete active loop state and a concrete worker
exception. -/
theorem loop_always_injects_nonempty_witness :
    sampleActive.loopActive = true
    ∧ (∃ t, workerRun defaultOCRConfig true (WorkerInput.broken "x".toList)
          = WorkerSignal.completed t ∧ t ≠ [])
    ∧ (fullCycleTail sampleActive).2 = [Ev.autoStepEv] :=
  ⟨rfl,
    (loop_always_injects_nonempty defaultOCRConfig
      (WorkerInput.broken "x".toList) sampleActive rfl).1,
    (loop_always_injects_nonempty defaultOCRConfig
      (WorkerInput.broken "x".toList) sampleActive rfl).2.2.2.2.2.1⟩

/-- C8: once `_stop_loop` has cleared the `loop_active` flag, every
pending asynchronous continuation — OCR completion or failure, write
step, navigate step, next-cycle step, injection callback — leaves the
loop flag, the loop state tag, the page, the navigation count and the
OCR-run count unchanged and schedules no further loop work. -/
theorem stop_blocks_all_transitions (s : LoopSt) (e : Ev)
    (h : s.loopActive = false) :
    (dispatchEv s e).2 = []
    ∧ (dispatchEv s e).1.loopActive = false
    ∧ (dispatchEv s e).1.loopState = s.loopState
    ∧ (dispatchEv s e).1.page = s.page
    ∧ (dispatchEv s e).1.navigations = s.navigations
    ∧ (dispatchEv s e).1.ocrRuns = s.ocrRuns := by
  cases e <;>
    simp [dispatchEv, onOcrCompleted, onOcrFailed, loopWriteText,
      loopProceedToNext, automationStep, afterWriteInjection, runOcrStep,
      navigateNext, h]

/-- Witness for C8: a stopped state with a late OCR completion. -/
theorem stop_blocks_all_transitions_witness :
    sampleStopped.loopActive = false
    ∧ (dispatchEv sampleStopped (Ev.ocrCompleted "zoe99".toList)).2 = []
    ∧ (dispatchEv sampleStopped (Ev.ocrCompleted "zoe99".toList)).1.navigations
        = sampleStopped.navigations :=
  ⟨rfl,
    (stop_blocks_all_transitions sampleStopped (Ev.ocrCompleted "zoe99".toList) rfl).1,
    (stop_blocks_all_transitions sampleStopped
      (Ev.ocrCompleted "zoe99".toList) rfl).2.2.2.2.1⟩

/-- C9: when the page lacks the target textarea, the write step of an
active loop dispatches a script that resolves to `false` without
modifying the page and without throwing (the step is a total function),
and the injection callback still proceeds to navigation — it navigates
and schedules the next cycle. -/
theorem missing_field_fails_soft (s : LoopSt) (hact : s.loopActive = true)
    (htext : s.currentOcrText.isEmpty = false)
    (hta : s.page.hasTextarea = false) :
    loopWriteText s = (s, [Ev.afterInjEv false])
    ∧ (afterWriteInjection s false).2 = [Ev.autoStepEv]
    ∧ (afterWriteInjection s false).1.navigations = s.navigations + 1
    ∧ (afterWriteInjection s false).1.loopActive = true := by
  obtain ⟨la, ls, ct, pg, nv, oc⟩ := s
  obtain ⟨pb, tv, fc, sv⟩ := pg
  cases la
  · simp at hact
  · cases pb
    · refine ⟨?_, ?_, ?_, ?_⟩
      · simp [loopWriteText, injectScript, htext]
      · simp [afterWriteInjection, loopProceedToNext, navigateNext]
      · simp [afterWriteInjection, loopProceedToNext, navigateNext]
      · simp [afterWriteInjection, loopProceedToNext, navigateNext]
    · simp at hta

/-- Witness for C9: a concrete running state over a page with no
textarea. -/
theorem missing_field_fails_soft_witness :
    loopWriteText samplePageless = (samplePageless, [Ev.afterInjEv false])
    ∧ (afterWriteInjection samplePageless false).1.navigations
        = samplePageless.navigations + 1 :=
  ⟨(missing_field_fails_soft samplePageless rfl rfl rfl).1,
    (missing_field_fails_soft samplePageless rfl rfl rfl).2.2.1⟩

/-- C3 counterexample: `"Reply to b"` contains the marker phrase followed
by a 1-character run, yet the normalizer does not return that run `"b"`
— the patterns require at least 2 characters, so the first-three-words
fallback fires and the whole phrase comes back. -/
theorem reply_pattern_one_char_counterexample :
    filter_text_with_reply_pattern defaultOCRConfig "Reply to b".toList
        = "Reply to b".toList
    ∧ filter_text_with_reply_pattern defaultOCRConfig "Reply to b".toList
        ≠ "b".toList := by
  constructor
  · decide
  · decide

/-- C3 (amended): for every raw text that passes the minimum-length and
excluded-pattern checks and on whose stripped form the ellipsis-free
search succeeds — i.e. the text contains the marker phrase `Reply to`
(case-insensitive) followed by whitespace and a run of 2 to 60
non-newline characters — the normalizer returns `replyToken`: the capture
of the ellipsis-terminated search when that search succeeds (it is tried
first), otherwise the ellipsis-free capture, trimmed, with a terminating
ellipsis stripped and trailing whitespace removed. -/
theorem reply_pattern_extraction (cfg : OCRConfig) (raw_text u : List Char)
    (h1 : (raw_text.isEmpty
        || decide ((pyStrip raw_text).length < cfg.min_text_length)) = false)
    (h2 : (cfg.excluded_patterns.any fun p => pyInUpper p.toList raw_text) = false)
    (h3 : searchReplyNoEllipsis (pyStrip raw_text) = some u) :
    filter_text_with_reply_pattern cfg raw_text
      = replyToken (pyStrip raw_text) u := by
  unfold filter_text_with_reply_pattern replyToken
  rw [h1, h2]
  cases hse : searchReplyEllipsis (pyStrip raw_text) with
  | none => simp [h3, hse]
  | some v => simp [hse]

/-- Witness for C3 on the spec's own example `"Reply to alice123..."`,
whose normalization is the captured `"alice123"`. -/
theorem reply_pattern_extraction_witness :
    searchReplyNoEllipsis (pyStrip "Reply to alice123...".toList)
        = some "alice123...".toList
    ∧ filter_text_with_reply_pattern defaultOCRConfig "Reply to alice123...".toList
        = replyToken (pyStrip "Reply to alice123...".toList) "alice123...".toList
    ∧ replyToken (pyStrip "Reply to alice123...".toList) "alice123...".toList
        = "alice123".toList :=
  ⟨by decide,
    reply_pattern_extraction defaultOCRConfig "Reply to alice123...".toList
      "alice123...".toList (by decide) (by decide) (by decide),
    by decide⟩
